import Mathlib

/-!
Verification development for the Trade-Crypto replay-simulation core:
a shallow embedding of `src/signal_engine.py` (SignalEngine) and
`src/backtester.py` (Backtester) over exact rationals, with theorems that
settle the frozen specification claims.

Python float values become `ℚ`; the Python truthiness guards
(`if ema_50 and ...`) become explicit `≠ 0` tests; the integer score is an
`Int`; strings that select behaviour (`'Bullish'`, `'Weak'`, `'BUY'`, ...)
become inductive types.
-/

namespace TradeCrypto

/-- Python's `abs` on a rational, written so the kernel can evaluate it. -/
def qabs (x : ℚ) : ℚ := if x < 0 then -x else x

/-- Python's `max(0, min(100, b))` clamp on the integer score. -/
def clamp01 (b : Int) : Int := if b < 0 then 0 else if b > 100 then 100 else b

/-- trend_direction ∈ {Bullish, Bearish, Sideways}. -/
inductive TrendDirection
  | bullish
  | bearish
  | sideways
  deriving DecidableEq, Repr

/-- trend_strength ∈ {Weak, Medium, Strong, Very Strong}. -/
inductive TrendStrength
  | weak
  | medium
  | strong
  | veryStrong
  deriving DecidableEq, Repr

/-- signal ∈ {BUY, SELL, HOLD}. -/
inductive Signal
  | buy
  | sell
  | hold
  deriving DecidableEq, Repr

/-- The metrics dictionary consumed by `SignalEngine` (signal_engine.py). -/
structure Metrics where
  close : ℚ
  rsi : ℚ
  macd : ℚ
  macd_signal : ℚ
  macd_hist : ℚ
  ema_50 : ℚ
  ema_200 : ℚ
  atr : ℚ
  trend_direction : TrendDirection
  trend_strength : TrendStrength
  support : ℚ
  resistance : ℚ
  volume : ℚ
  vol_sma : ℚ
  deriving DecidableEq, Repr

/-- Step 1 of `SignalEngine.analyze` (signal_engine.py lines 19-32):
directional trend contribution, with the EMA-50 momentum confirmation
(`if ema_50 and close > ema_50`, Python truthiness = nonzero). -/
def trendScore (m : Metrics) : Int :=
  match m.trend_direction with
  | .bullish => 15 + (if m.ema_50 ≠ 0 ∧ m.close > m.ema_50 then 10 else 0)
  | .bearish => -15 - (if m.ema_50 ≠ 0 ∧ m.close < m.ema_50 then 10 else 0)
  | .sideways => 0

/-- Step 2 of `SignalEngine.analyze` (signal_engine.py lines 50-106):
the Weak-trend score reset, the EMA-200 regime filter, the trend-strength
bonus and the regime-dependent RSI rules, applied to the running score. -/
def regimeScore (m : Metrics) (score0 : Int) : Int :=
  if m.trend_strength = .weak then 0
  else
    let isBull := m.ema_200 ≠ 0 ∧ m.close > m.ema_200
    let isBear := m.ema_200 ≠ 0 ∧ ¬ m.close > m.ema_200
    let s1 :=
      if isBull then
        if score0 > 0 then score0 + 15 else if score0 < 0 then 0 else score0
      else if isBear then
        if score0 < 0 then score0 - 15 else if score0 > 0 then 0 else score0
      else score0
    let s2 :=
      if m.trend_strength = .strong ∨ m.trend_strength = .veryStrong then
        if s1 > 0 then s1 + 10 else if s1 < 0 then s1 - 10 else s1
      else s1
    if isBull then
      if m.rsi < 40 then s2 + 20
      else if m.rsi > 70 then
        if m.trend_strength = .veryStrong then s2 + 5 else s2 - 10
      else if m.rsi > 50 then s2 + 10
      else s2
    else if isBear then
      if m.rsi > 60 then s2 - 20
      else if m.rsi < 30 then
        if m.trend_strength = .veryStrong then s2 - 5 else s2 + 10
      else if m.rsi < 50 then s2 - 10
      else s2
    else s2

/-- Step 3 of `SignalEngine.analyze` (signal_engine.py lines 112-117):
MACD histogram sign. -/
def macdScore (m : Metrics) (s : Int) : Int :=
  if m.macd_hist > 0 then s + 10 else s - 10

/-- First half of step 4 of `SignalEngine.analyze` (signal_engine.py lines
125-127): support proximity (`if support and close <= support * 1.01`). -/
def supportScore (m : Metrics) (s : Int) : Int :=
  if m.support ≠ 0 ∧ m.close ≤ m.support * (101/100) then s + 15 else s

/-- Second half of step 4 of `SignalEngine.analyze` (signal_engine.py lines
129-131): resistance proximity (`if resistance and close >= resistance *
0.99`). -/
def resistanceScore (m : Metrics) (s : Int) : Int :=
  if m.resistance ≠ 0 ∧ m.close ≥ m.resistance * (99/100) then s - 15 else s

/-- Step 4 of `SignalEngine.analyze`: support then resistance; both bonuses
may apply. -/
def srScore (m : Metrics) (s : Int) : Int :=
  resistanceScore m (supportScore m s)

/-- Step 5 of `SignalEngine.analyze` (signal_engine.py lines 135-164):
volume confirmation keyed on the sign of the running score. -/
def volScore (m : Metrics) (s : Int) : Int :=
  if m.volume ≠ 0 ∧ m.vol_sma ≠ 0 then
    if m.vol_sma > 0 then
      if m.volume / m.vol_sma > 2 then
        if s > 0 then s + 20 else if s < 0 then s - 20 else s
      else if m.volume / m.vol_sma > 6/5 then
        if s > 0 then s + 10 else if s < 0 then s - 10 else s
      else if m.volume / m.vol_sma < 3/5 then
        if s > 0 then s - 5 else if s < 0 then s + 5 else s
      else s
    else s
  else s

/-- The complete additive score of `SignalEngine.analyze`, rules applied in
source order. -/
def scoreOf (m : Metrics) : Int :=
  volScore m (srScore m (macdScore m (regimeScore m (trendScore m))))

/-- Decision produced by `SignalEngine.analyze` (explanatory factor strings
omitted). -/
structure Decision where
  signal : Signal
  reason : String
  probability : Int
  confidence : Int
  deriving DecidableEq, Repr

/-- `final_probability` in `SignalEngine.analyze` (signal_engine.py lines
170-171): the score plus 50 clamped to [0, 100]. -/
def probabilityOf (m : Metrics) : Int := clamp01 (50 + scoreOf m)

/-- Signal thresholds of `SignalEngine.analyze` (signal_engine.py lines
174-183): BUY at probability ≥ 75, SELL at ≤ 25, else HOLD. -/
def signalOf (m : Metrics) : Signal :=
  if probabilityOf m ≥ 75 then .buy
  else if probabilityOf m ≤ 25 then .sell
  else .hold

/-- Reason text attached to the signal (signal_engine.py lines 174-183). -/
def reasonOf (m : Metrics) : String :=
  if probabilityOf m ≥ 75 then "Strong Bullish Confluence"
  else if probabilityOf m ≤ 25 then "Strong Bearish Confluence"
  else "Market Indecisive"

/-- `SignalEngine.analyze` (signal_engine.py lines 7-194); confidence is
twice the distance of the probability from 50. -/
def analyze (m : Metrics) : Decision :=
  { signal := signalOf m, reason := reasonOf m,
    probability := probabilityOf m,
    confidence := ((probabilityOf m - 50).natAbs : Int) * 2 }

/-- Entry/stop/target levels. -/
structure TradeSetup where
  entry : ℚ
  sl : ℚ
  tp : ℚ
  deriving DecidableEq, Repr

/-- Stop/target ATR multipliers selected by trend strength in
`SignalEngine.calculate_entry_exit` (signal_engine.py lines 200-214):
base (Medium/default) 1.8 and 3.0, Strong and Very Strong 2.0 and 4.0,
Weak 1.5 and 2.0.  Returned as (sl_mult, tp_mult). -/
def multsFor (ts : TrendStrength) : ℚ × ℚ :=
  match ts with
  | .strong => (2, 4)
  | .veryStrong => (2, 4)
  | .weak => (3/2, 2)
  | .medium => (9/5, 3)

/-- `SignalEngine.calculate_entry_exit` (signal_engine.py lines 196-225). -/
def calculate_entry_exit (m : Metrics) (signal : Signal) (price atr : ℚ) :
    TradeSetup :=
  let mults := multsFor m.trend_strength
  match signal with
  | .buy => { entry := price, sl := price - mults.1 * atr, tp := price + mults.2 * atr }
  | .sell => { entry := price, sl := price + mults.1 * atr, tp := price - mults.2 * atr }
  | .hold => { entry := price, sl := 0, tp := 0 }

/-! ## Backtester (backtester.py) -/

/-- Position side: `'BUY'` / `'SELL'` in the source's position dict. -/
inductive PosType
  | long
  | short
  deriving DecidableEq, Repr

/-- The open-position dict of `Backtester` (backtester.py line 17 and
`_execute_buy`/`_execute_short`). -/
structure Position where
  ptype : PosType
  entry_price : ℚ
  size : ℚ
  sl : ℚ
  initial_sl : ℚ
  tp : ℚ
  entry_time : Int
  deriving DecidableEq, Repr

/-- Exit reason recorded on a closed trade. -/
inductive ExitReason
  | SL
  | TP
  deriving DecidableEq, Repr

/-- A closed-trade record appended to `self.trades`. -/
structure Trade where
  entry_time : Int
  exit_time : Int
  entry_price : ℚ
  exit_price : ℚ
  ttype : PosType
  size : ℚ
  pnl : ℚ
  pnl_pct : ℚ
  reason : ExitReason
  deriving DecidableEq, Repr

/-- One row of the indicator-enriched dataframe the simulation loop reads
(OHLCV plus the columns added by `TechnicalAnalyzer.add_all_indicators`).
`bopen` is the bar's open price. -/
structure Row where
  timestamp : Int
  bopen : ℚ
  high : ℚ
  low : ℚ
  close : ℚ
  volume : ℚ
  ema50 : ℚ
  ema200 : ℚ
  adx : ℚ
  rsi : ℚ
  macd : ℚ
  macdSig : ℚ
  macdHist : ℚ
  atr : ℚ
  support : ℚ
  resistance : ℚ
  volSma : ℚ
  deriving DecidableEq, Repr

/-- Backtester fee/slippage configuration. -/
structure Config where
  fee_pct : ℚ
  slippage_pct : ℚ
  deriving DecidableEq, Repr

/-- Mutable state of a `Backtester` instance during `run`. -/
structure BtState where
  balance : ℚ
  position : Option Position
  trades : List Trade
  equity_curve : List (Int × ℚ)
  benchmark_curve : List (Int × ℚ)
  deriving DecidableEq, Repr

/-- `Backtester._execute_buy` (backtester.py lines 237-258): slip the price
up, charge notional plus fee, refuse if unaffordable, else open a long. -/
def execute_buy (cfg : Config) (st : BtState) (price size sl tp : ℚ)
    (timestamp : Int) : BtState :=
  let p := price * (1 + cfg.slippage_pct)
  let cost := p * size
  let fee := cost * cfg.fee_pct
  let total_cost := cost + fee
  if total_cost > st.balance then st
  else
    { st with
      balance := st.balance - total_cost,
      position := some { ptype := .long, entry_price := p, size := size,
                         sl := sl, initial_sl := sl, tp := tp,
                         entry_time := timestamp } }

/-- `Backtester._execute_short` (backtester.py lines 261-286): slip the price
down, lock notional plus fee as full collateral, refuse if unaffordable,
else open a short. -/
def execute_short (cfg : Config) (st : BtState) (price size sl tp : ℚ)
    (timestamp : Int) : BtState :=
  let p := price * (1 - cfg.slippage_pct)
  let cost := p * size
  let fee := cost * cfg.fee_pct
  let required_margin := cost + fee
  if required_margin > st.balance then st
  else
    { st with
      balance := st.balance - required_margin,
      position := some { ptype := .short, entry_price := p, size := size,
                         sl := sl, initial_sl := sl, tp := tp,
                         entry_time := timestamp } }

/-- `Backtester._execute_sell` (backtester.py lines 289-321): close a long at
the slipped price, credit net revenue, append the trade, go flat. -/
def execute_sell (cfg : Config) (st : BtState) (pos : Position) (price : ℚ)
    (timestamp : Int) (reason : ExitReason) : BtState :=
  let p := price * (1 - cfg.slippage_pct)
  let size := pos.size
  let revenue := p * size
  let fee := revenue * cfg.fee_pct
  let net_revenue := revenue - fee
  let entry_price := pos.entry_price
  let gross_pnl := (p - entry_price) * size
  let total_fees := entry_price * size * cfg.fee_pct + p * size * cfg.fee_pct
  let net_pnl := gross_pnl - total_fees
  let pnl_pct := net_pnl / (entry_price * size) * 100
  { st with
    balance := st.balance + net_revenue,
    position := none,
    trades := st.trades ++
      [{ entry_time := pos.entry_time, exit_time := timestamp,
         entry_price := entry_price, exit_price := p, ttype := .long,
         size := size, pnl := net_pnl, pnl_pct := pnl_pct, reason := reason }] }

/-- `Backtester._execute_cover` (backtester.py lines 323-360): buy back a
short at the slipped price, release the collateral plus PnL
(`balance += 2*entry_val - cost - fee`), append the trade, go flat. -/
def execute_cover (cfg : Config) (st : BtState) (pos : Position) (price : ℚ)
    (timestamp : Int) (reason : ExitReason) : BtState :=
  let p := price * (1 + cfg.slippage_pct)
  let size := pos.size
  let cost := p * size
  let fee := cost * cfg.fee_pct
  let entry_val := pos.entry_price * size
  let entry_price := pos.entry_price
  let gross_pnl := (entry_price - p) * size
  let total_fees := entry_price * size * cfg.fee_pct + p * size * cfg.fee_pct
  let net_pnl := gross_pnl - total_fees
  let pnl_pct := net_pnl / (entry_price * size) * 100
  { st with
    balance := st.balance + (2 * entry_val) - cost - fee,
    position := none,
    trades := st.trades ++
      [{ entry_time := pos.entry_time, exit_time := timestamp,
         entry_price := entry_price, exit_price := p, ttype := .short,
         size := size, pnl := net_pnl, pnl_pct := pnl_pct, reason := reason }] }

/-- The exit-price / exit-reason selection block shared by the long and
short branches of `Backtester._check_exit`
(backtester.py lines 103-124 and 144-165). -/
def exit_decision (bopen sl tp : ℚ) (hit_sl hit_tp : Bool) :
    Option (ℚ × ExitReason) :=
  if hit_sl ∧ hit_tp then
    if qabs (bopen - sl) < qabs (bopen - tp) then some (sl, .SL)
    else some (tp, .TP)
  else if hit_sl then some (sl, .SL)
  else if hit_tp then some (tp, .TP)
  else none

/-- `Backtester._check_exit` (backtester.py lines 82-165): trailing-stop
tightening at 2.5R securing 0.5R, touch detection against the bar's
high/low, tie-break against the bar's open, then trade execution. -/
def check_exit (cfg : Config) (st : BtState) (row : Row) : BtState :=
  match st.position with
  | none => st
  | some pos =>
    match pos.ptype with
    | .long =>
      let risk := pos.entry_price - pos.initial_sl
      let new_sl := pos.entry_price + (1/2) * risk
      let sl :=
        if risk > 0 ∧ row.high ≥ pos.entry_price + (5/2) * risk ∧ new_sl > pos.sl
        then new_sl else pos.sl
      let pos' := { pos with sl := sl }
      let st' := { st with position := some pos' }
      match exit_decision row.bopen sl pos.tp
          (decide (row.low ≤ sl)) (decide (row.high ≥ pos.tp)) with
      | some (price, reason) => execute_sell cfg st' pos' price row.timestamp reason
      | none => st'
    | .short =>
      let risk := pos.initial_sl - pos.entry_price
      let new_sl := pos.entry_price - (1/2) * risk
      let sl :=
        if risk > 0 ∧ row.low ≤ pos.entry_price - (5/2) * risk ∧ new_sl < pos.sl
        then new_sl else pos.sl
      let pos' := { pos with sl := sl }
      let st' := { st with position := some pos' }
      match exit_decision row.bopen sl pos.tp
          (decide (row.high ≥ sl)) (decide (row.low ≤ pos.tp)) with
      | some (price, reason) => execute_cover cfg st' pos' price row.timestamp reason
      | none => st'

/-- The metrics dictionary `Backtester._check_entry` builds from a dataframe
row (backtester.py lines 170-195): trend direction from the EMA-50/EMA-200
comparison (the initial `"Sideways"` is always overwritten), trend strength
`"Strong"` exactly when ADX > 25, else `"Weak"`. -/
def buildMetrics (row : Row) : Metrics :=
  { close := row.close, rsi := row.rsi, macd := row.macd,
    macd_signal := row.macdSig, macd_hist := row.macdHist,
    ema_50 := row.ema50, ema_200 := row.ema200, atr := row.atr,
    trend_direction := if row.ema50 > row.ema200 then .bullish else .bearish,
    trend_strength := if row.adx > 25 then .strong else .weak,
    support := row.support, resistance := row.resistance,
    volume := row.volume, vol_sma := row.volSma }

/-- `Backtester._position_size_and_execute` (backtester.py lines 208-235):
2% risk-based sizing, affordability clip to balance/(1+fee_pct), degenerate
and non-positive-size guards, then execution. -/
def position_size_and_execute (cfg : Config) (st : BtState)
    (setup : TradeSetup) (row : Row) (direction : Signal) : BtState :=
  if st.balance ≤ 0 then st
  else
    let risk_amount := st.balance * (1/50)
    let price_risk := qabs (setup.entry - setup.sl)
    if price_risk = 0 then st
    else
      let size0 := risk_amount / price_risk
      let max_cost := st.balance / (1 + cfg.fee_pct)
      let cost := size0 * row.close
      let size := if cost > max_cost then max_cost / row.close else size0
      if size ≤ 0 then st
      else if direction = .buy then
        execute_buy cfg st row.close size setup.sl setup.tp row.timestamp
      else
        execute_short cfg st row.close size setup.sl setup.tp row.timestamp

/-- `Backtester._check_entry` (backtester.py lines 167-206): build the
metrics snapshot, run the signal engine, and on BUY/SELL size and execute
an entry at the row's close. -/
def check_entry (cfg : Config) (st : BtState) (row : Row) : BtState :=
  let m := buildMetrics row
  let analysis := analyze m
  if analysis.signal = .buy then
    position_size_and_execute cfg st
      (calculate_entry_exit m .buy row.close row.atr) row .buy
  else if analysis.signal = .sell then
    position_size_and_execute cfg st
      (calculate_entry_exit m .sell row.close row.atr) row .sell
  else st

/-- The per-bar equity mark-to-market and benchmark sampling of
`Backtester.run` (backtester.py lines 46-70). -/
def record_curves (benchShares : ℚ) (st : BtState) (row : Row) : BtState :=
  let eq :=
    match st.position with
    | none => st.balance
    | some pos =>
      match pos.ptype with
      | .long => st.balance + pos.size * row.close
      | .short =>
        st.balance + 2 * (pos.size * pos.entry_price) - pos.size * row.close
  { st with
    equity_curve := st.equity_curve ++ [(row.timestamp, eq)],
    benchmark_curve := st.benchmark_curve ++ [(row.timestamp, benchShares * row.close)] }

/-- One iteration of the simulation loop of `Backtester.run`
(backtester.py lines 42-79): record curves, then the exit check if a
position is open, then the entry check if flat. -/
def process_bar (cfg : Config) (benchShares : ℚ) (st : BtState) (row : Row) :
    BtState :=
  let st0 := record_curves benchShares st row
  let st1 := if st0.position.isSome then check_exit cfg st0 row else st0
  if st1.position.isNone then check_entry cfg st1 row else st1

/-- The ways `Backtester.run` can fail before its loop: the first-bar access
`self.df.iloc[0]` on an empty dataframe (Python `IndexError`), or the
explicit `"Not enough data points for backtesting (min 250)"` exception. -/
inductive RunError
  | indexError
  | insufficientData
  deriving DecidableEq, Repr

/-- The initial `Backtester` state (backtester.py lines 15-20). -/
def initState (cap : ℚ) : BtState :=
  { balance := cap, position := none, trades := [],
    equity_curve := [], benchmark_curve := [] }

/-- `Backtester.run` (backtester.py lines 22-80), taking the
indicator-enriched rows: read the first row's close for the buy-and-hold
benchmark, reject fewer than 210 rows, then fold the per-bar step over the
rows from index 200. -/
def run (cfg : Config) (cap : ℚ) (rows : List Row) : Except RunError BtState :=
  match rows with
  | [] => .error .indexError
  | r0 :: _ =>
    if rows.length < 200 + 10 then .error .insufficientData
    else
      let benchShares := cap / r0.close
      .ok ((rows.drop 200).foldl (process_bar cfg benchShares) (initState cap))

/-- Gross winning PnL, `total_profit` in `Backtester._calculate_metrics`
(backtester.py lines 378-383). -/
def totalProfit (trades : List Trade) : ℚ :=
  ((trades.filter (fun t => t.pnl > 0)).map (fun t => t.pnl)).sum

/-- Absolute gross losing PnL, `total_loss` in
`Backtester._calculate_metrics` (backtester.py lines 379-384). -/
def totalLoss (trades : List Trade) : ℚ :=
  qabs ((trades.filter (fun t => t.pnl ≤ 0)).map (fun t => t.pnl)).sum

/-- Profit factor of `Backtester._calculate_metrics`
(backtester.py line 385): ratio of gross profit to absolute gross loss,
with the finite sentinel 999 when the loss total is not positive. -/
def profit_factor (trades : List Trade) : ℚ :=
  if totalLoss trades > 0 then totalProfit trades / totalLoss trades else 999

/-! ## Concrete inputs used by the claim theorems -/

/-- Scenario A metrics from the specification's testable properties. -/
def mScenarioA : Metrics :=
  { close := 100, rsi := 35, macd := 0, macd_signal := 0, macd_hist := 1,
    ema_50 := 95, ema_200 := 90, atr := 0,
    trend_direction := .bullish, trend_strength := .veryStrong,
    support := 99, resistance := 150, volume := 250, vol_sma := 100 }

/-- A Weak-trend snapshot with a positive MACD histogram and the close
within 1% of support: the reset score 0 gains +10 (MACD) and +15 (support),
reaching probability 75. -/
def mWeakBuy : Metrics :=
  { close := 100, rsi := 50, macd := 0, macd_signal := 0, macd_hist := 1,
    ema_50 := 0, ema_200 := 0, atr := 0,
    trend_direction := .bullish, trend_strength := .weak,
    support := 100, resistance := 0, volume := 0, vol_sma := 0 }

/-- An arbitrary snapshot used to evaluate the HOLD branch of
`calculate_entry_exit`. -/
def mHoldProbe : Metrics :=
  { close := 100, rsi := 50, macd := 0, macd_signal := 0, macd_hist := 0,
    ema_50 := 0, ema_200 := 0, atr := 5,
    trend_direction := .sideways, trend_strength := .medium,
    support := 0, resistance := 0, volume := 0, vol_sma := 0 }

/-- Zero fee, zero slippage. -/
def cfg0 : Config := { fee_pct := 0, slippage_pct := 0 }

/-- Zero fee, 50% slippage (the claims quantify over every non-negative
slippage_pct). -/
def cfgHalf : Config := { fee_pct := 0, slippage_pct := 1/2 }

/-- An open long at 100 with stop 96 and target 104, equidistant (4) from
a bar open of 100. -/
def posTie : Position :=
  { ptype := .long, entry_price := 100, size := 1, sl := 96,
    initial_sl := 96, tp := 104, entry_time := 0 }

/-- State holding `posTie`. -/
def stTie : BtState :=
  { balance := 0, position := some posTie, trades := [],
    equity_curve := [], benchmark_curve := [] }

/-- A bar touching both the stop (low 94 ≤ 96) and the target
(high 105 ≥ 104) of `posTie`, opening exactly halfway between them. -/
def rowTie : Row :=
  { timestamp := 1, bopen := 100, high := 105, low := 94, close := 100,
    volume := 0, ema50 := 0, ema200 := 0, adx := 0, rsi := 0, macd := 0,
    macdSig := 0, macdHist := 0, atr := 0, support := 0, resistance := 0,
    volSma := 0 }

/-- An all-zero indicator row: its snapshot scores −10 (probability 40,
HOLD), so bars carrying it never trade. -/
def zeroRow : Row :=
  { timestamp := 0, bopen := 0, high := 0, low := 0, close := 0,
    volume := 0, ema50 := 0, ema200 := 0, adx := 0, rsi := 0, macd := 0,
    macdSig := 0, macdHist := 0, atr := 0, support := 0, resistance := 0,
    volSma := 0 }

/-- A row whose snapshot (Bearish, Strong, RSI 65, negative MACD histogram)
scores −80: probability 0, signal SELL; ATR 1 gives stop 102 and target 96
around the close 100. -/
def rowSell : Row :=
  { timestamp := 1, bopen := 100, high := 100, low := 100, close := 100,
    volume := 0, ema50 := 105, ema200 := 110, adx := 30, rsi := 65,
    macd := 0, macdSig := 0, macdHist := -1, atr := 1, support := 90,
    resistance := 150, volSma := 0 }

/-- The bar after `rowSell`: its high 103 touches the short's stop 102 and
its low 97 misses the target 96, forcing a cover at the stop. -/
def rowCrash : Row :=
  { timestamp := 2, bopen := 100, high := 103, low := 97, close := 100,
    volume := 0, ema50 := 0, ema200 := 0, adx := 0, rsi := 0, macd := 0,
    macdSig := 0, macdHist := 0, atr := 0, support := 0, resistance := 0,
    volSma := 0 }

/-- A 210-row sequence (the minimum `run` accepts) whose only signal is the
SELL on `rowSell`, followed by the adverse bar `rowCrash`. -/
def rowsShortBust : List Row :=
  List.replicate 208 zeroRow ++ [rowSell, rowCrash]

/-- A 210-row all-quiet sequence: long enough for `run` to proceed. -/
def rowsQuiet : List Row := List.replicate 210 zeroRow

/-- A 5-row sequence: nonempty but below the 210-row minimum. -/
def rowsFew : List Row := List.replicate 5 zeroRow

/-- Final cash balance of a run, 0 on error. -/
def finalBalance (r : Except RunError BtState) : ℚ :=
  match r with
  | .ok st => st.balance
  | .error _ => 0

/-- An open long at 100 (stop 96, target 108) held with zero cash. -/
def posReentry : Position :=
  { ptype := .long, entry_price := 100, size := 100, sl := 96,
    initial_sl := 96, tp := 108, entry_time := 0 }

/-- State holding `posReentry` with an empty ledger. -/
def stReentry : BtState :=
  { balance := 0, position := some posReentry, trades := [],
    equity_curve := [], benchmark_curve := [] }

/-- A bar that takes out `posReentry`'s target at 108 (high 110, low 103)
and whose own snapshot (Bullish, Strong, RSI 35, positive MACD histogram)
scores +80: probability 100, a fresh BUY on the very same bar. -/
def rowReentry : Row :=
  { timestamp := 3, bopen := 104, high := 110, low := 103, close := 110,
    volume := 0, ema50 := 105, ema200 := 90, adx := 30, rsi := 35,
    macd := 0, macdSig := 0, macdHist := 1, atr := 1, support := 0,
    resistance := 0, volSma := 0 }

/-- Scenario D of the specification: an open long at 100 with initial stop
96 (R = 4) and a far target. -/
def posTrail : Position :=
  { ptype := .long, entry_price := 100, size := 1, sl := 96,
    initial_sl := 96, tp := 1000, entry_time := 0 }

/-- State holding `posTrail`. -/
def stTrail : BtState :=
  { balance := 0, position := some posTrail, trades := [],
    equity_curve := [], benchmark_curve := [] }

/-- A bar whose high 111 reaches 100 + 2.5·4 = 110 without touching the
stop 102 (low 105) or the far target. -/
def rowTrail : Row :=
  { timestamp := 1, bopen := 108, high := 111, low := 105, close := 108,
    volume := 0, ema50 := 0, ema200 := 0, adx := 0, rsi := 0, macd := 0,
    macdSig := 0, macdHist := 0, atr := 0, support := 0, resistance := 0,
    volSma := 0 }

/-- `posTrail` after the trailing stop tightens to 100 + 0.5·4 = 102. -/
def posTrailAfter : Position :=
  { ptype := .long, entry_price := 100, size := 1, sl := 102,
    initial_sl := 96, tp := 1000, entry_time := 0 }

/-! ## Helper lemmas -/

theorem macdScore_bound (m : Metrics) (s : Int) :
    s - 10 ≤ macdScore m s ∧ macdScore m s ≤ s + 10 := by
  unfold macdScore
  split <;> omega

theorem srScore_bound (m : Metrics) (s : Int) :
    s - 15 ≤ srScore m s ∧ srScore m s ≤ s + 15 := by
  unfold srScore resistanceScore supportScore
  split <;> split <;> omega

theorem volScore_bound (m : Metrics) (s : Int) :
    s - 20 ≤ volScore m s ∧ volScore m s ≤ s + 20 := by
  unfold volScore
  repeat' split
  all_goals omega

theorem regimeScore_weak (m : Metrics) (h : m.trend_strength = .weak)
    (s : Int) : regimeScore m s = 0 := by
  unfold regimeScore
  simp [h]

theorem analyze_probability (m : Metrics) :
    (analyze m).probability = clamp01 (50 + scoreOf m) := rfl

theorem record_curves_position (bs : ℚ) (st : BtState) (row : Row) :
    (record_curves bs st row).position = st.position := rfl

/-! ## Claim theorems -/

/-- C6: on the Scenario A snapshot {Bullish, Very Strong, close 100,
EMA-50 95, EMA-200 90, RSI 35, MACD hist +1, support 99, resistance 150,
volume 250, vol-SMA 100}, `analyze` returns probability exactly 100 (the
raw score plus 50 clamped to [0,100]), signal BUY, and confidence 100. -/
theorem c6_scenario_a :
    (analyze mScenarioA).probability = 100 ∧
    (analyze mScenarioA).probability = clamp01 (50 + scoreOf mScenarioA) ∧
    (analyze mScenarioA).signal = Signal.buy ∧
    (analyze mScenarioA).confidence = 100 := by
  with_unfolding_all decide

/-- C3 counterexample: with signal HOLD at price 100 and ATR 5, the
returned TradeSetup has entry = 100 ≠ 0 (the claim asserts entry = 0);
only the stop and target are zeroed. -/
theorem c3_counterexample :
    (calculate_entry_exit mHoldProbe Signal.hold 100 5).entry = 100 ∧
    (calculate_entry_exit mHoldProbe Signal.hold 100 5).entry ≠ 0 ∧
    (calculate_entry_exit mHoldProbe Signal.hold 100 5).sl = 0 ∧
    (calculate_entry_exit mHoldProbe Signal.hold 100 5).tp = 0 := by
  with_unfolding_all decide

/-- C3 (amended): for every metrics snapshot, price and ATR, when the
signal passed to `calculate_entry_exit` is HOLD the returned TradeSetup
has entry equal to the input price, stop-loss = 0 and take-profit = 0. -/
theorem c3_hold_setup (m : Metrics) (price atr : ℚ) :
    calculate_entry_exit m Signal.hold price atr =
      { entry := price, sl := 0, tp := 0 } := rfl

/-- C9: the metrics snapshot `Backtester._check_entry` builds always has
trend_strength Weak or Strong (never Medium or Very Strong) and
trend_direction Bullish or Bearish (never Sideways), so every executed
entry uses the ATR multipliers (1.5, 2.0) (Weak) or (2.0, 4.0) (Strong) and
never the Medium defaults (1.8, 3.0) or a Very-Strong-only branch. -/
theorem c9_backtest_regimes (row : Row) :
    ((buildMetrics row).trend_strength = TrendStrength.weak ∨
     (buildMetrics row).trend_strength = TrendStrength.strong) ∧
    ((buildMetrics row).trend_direction = TrendDirection.bullish ∨
     (buildMetrics row).trend_direction = TrendDirection.bearish) ∧
    (multsFor (buildMetrics row).trend_strength = (3/2, 2) ∨
     multsFor (buildMetrics row).trend_strength = (2, 4)) := by
  unfold buildMetrics
  by_cases h1 : row.adx > 25 <;> by_cases h2 : row.ema50 > row.ema200 <;>
    simp [h1, h2, multsFor]

/-- C1 counterexample: a long open at 100 with stop 96 and target 104 on a
bar {open 100, high 105, low 94} touches both levels at exactly equal
distance 4 from the open; the recorded exit is TP at 104, not SL at the
stop price as the claim's tie rule asserts. -/
theorem c1_counterexample :
    rowTie.low ≤ posTie.sl ∧ rowTie.high ≥ posTie.tp ∧
    qabs (rowTie.bopen - posTie.sl) = qabs (rowTie.bopen - posTie.tp) ∧
    (check_exit cfg0 stTie rowTie).trades.map
      (fun t => (t.reason, t.exit_price)) = [(ExitReason.TP, 104)] := by
  with_unfolding_all decide

/-- C1 (amended): when both the stop and the target are touched in one bar,
the exit is whichever of {sl, tp} is strictly closer to the bar's open
price, and when the two distances are exactly equal the exit is recorded
as TP at the target price (the strict `<` comparison falls through to the
TP branch); exactly one of SL/TP is recorded. -/
theorem c1_same_bar_tiebreak (o sl tp : ℚ) :
    exit_decision o sl tp true true =
      some (if qabs (o - sl) < qabs (o - tp) then (sl, ExitReason.SL)
            else (tp, ExitReason.TP)) ∧
    (qabs (o - sl) = qabs (o - tp) →
      exit_decision o sl tp true true = some (tp, ExitReason.TP)) := by
  constructor
  · unfold exit_decision
    simp only [and_self, if_true]
    split <;> simp_all
  · intro h
    unfold exit_decision
    simp [h]

theorem c1_same_bar_tiebreak_witness :
    exit_decision 100 96 104 true true = some (104, ExitReason.TP) :=
  (c1_same_bar_tiebreak 100 96 104).2 (by with_unfolding_all rfl)

/-- C2 counterexample: a Weak-trend snapshot with a positive MACD histogram
and the close within 1% of support reaches probability 75 and signal BUY,
so the Weak-trend reset does not keep the probability strictly between 25
and 75 nor force HOLD. -/
theorem c2_counterexample :
    mWeakBuy.trend_strength = TrendStrength.weak ∧
    (analyze mWeakBuy).signal = Signal.buy ∧
    (analyze mWeakBuy).probability = 75 := by
  with_unfolding_all decide

/-- C2 (amended): on a Weak-trend snapshot the score is reset to 0 before
the MACD, support/resistance and volume rules, which still apply, so the
final probability lies in [5, 95]; BUY (probability ≥ 75) or SELL
(probability ≤ 25) can still be emitted when those later rules align. -/
theorem c2_weak_probability_bounds (m : Metrics)
    (h : m.trend_strength = TrendStrength.weak) :
    5 ≤ (analyze m).probability ∧ (analyze m).probability ≤ 95 := by
  have hs : -45 ≤ scoreOf m ∧ scoreOf m ≤ 45 := by
    unfold scoreOf
    rw [regimeScore_weak m h]
    have h1 := macdScore_bound m 0
    have h2 := srScore_bound m (macdScore m 0)
    have h3 := volScore_bound m (srScore m (macdScore m 0))
    omega
  rw [analyze_probability m]
  unfold clamp01
  split
  · omega
  · split <;> omega

theorem c2_weak_probability_bounds_witness :
    5 ≤ (analyze mWeakBuy).probability ∧
    (analyze mWeakBuy).probability ≤ 95 :=
  c2_weak_probability_bounds mWeakBuy rfl

/-- C7 counterexample: on the empty bar sequence (which has fewer than 210
bars) `run` fails on the first-bar access `self.df.iloc[0]` with an index
error, before it ever reaches the explicit insufficient-data check, so the
claim's "raises an explicit insufficient-data error" does not hold there. -/
theorem c7_counterexample :
    run cfg0 10000 ([] : List Row) = Except.error RunError.indexError ∧
    run cfg0 10000 ([] : List Row) ≠ Except.error RunError.insufficientData := by
  constructor
  · rfl
  · intro h
    exact absurd (Except.error.inj h) (by simp)

/-- C7 (amended): for every NONEMPTY bar sequence with fewer than 210 bars
(the 200-bar warm-up plus 10), `run` raises the explicit insufficient-data
error before processing any bar and produces no partial result; for
sequences of at least 210 bars the run proceeds past that check.  (The
empty sequence instead fails earlier, on the first-bar access.) -/
theorem c7_min_history (cfg : Config) (cap : ℚ) (rows : List Row) :
    (rows ≠ [] → rows.length < 210 →
      run cfg cap rows = Except.error RunError.insufficientData) ∧
    (210 ≤ rows.length →
      run cfg cap rows ≠ Except.error RunError.insufficientData ∧
      (run cfg cap rows).isOk = true) := by
  constructor
  · intro hne hlen
    match rows, hne with
    | r0 :: rs, _ =>
      unfold run
      dsimp only
      rw [if_pos (by simp at hlen ⊢; omega)]
  · intro hlen
    match rows with
    | [] => simp at hlen
    | r0 :: rs =>
      unfold run
      dsimp only
      rw [if_neg (by simp at hlen ⊢; omega)]
      exact ⟨by simp, rfl⟩

theorem c7_min_history_witness :
    run cfg0 10000 rowsFew = Except.error RunError.insufficientData ∧
    (run cfg0 10000 rowsQuiet).isOk = true :=
  ⟨(c7_min_history cfg0 10000 rowsFew).1
      (by
        intro h
        have h5 : rowsFew.length = 5 := by
          show (List.replicate 5 zeroRow).length = 5
          rw [List.length_replicate]
        rw [h] at h5
        simp at h5)
      (by
        show (List.replicate 5 zeroRow).length < 210
        rw [List.length_replicate]
        norm_num),
   ((c7_min_history cfg0 10000 rowsQuiet).2
      (by
        show 210 ≤ (List.replicate 210 zeroRow).length
        rw [List.length_replicate])).2⟩

theorem sum_filter_nonpos_le (l : List Trade) :
    ((l.filter (fun t => t.pnl ≤ 0)).map (fun t => t.pnl)).sum ≤ 0 := by
  induction l with
  | nil => simp
  | cons t l ih =>
    by_cases h : t.pnl ≤ 0
    · simp only [List.filter_cons, h, decide_True, if_true, List.map_cons,
        List.sum_cons]
      linarith
    · simp only [List.filter_cons, h, decide_False, if_false]
      exact ih

theorem sum_filter_nonpos_neg_iff (l : List Trade) :
    (((l.filter (fun t => t.pnl ≤ 0)).map (fun t => t.pnl)).sum < 0) ↔
      ∃ t ∈ l, t.pnl < 0 := by
  induction l with
  | nil => simp
  | cons t l ih =>
    have hrest := sum_filter_nonpos_le l
    by_cases h : t.pnl ≤ 0
    · simp only [List.filter_cons, h, decide_True, if_true, List.map_cons,
        List.sum_cons, List.exists_mem_cons_iff]
      constructor
      · intro hsum
        rcases lt_or_le t.pnl 0 with h1 | h1
        · exact Or.inl h1
        · have hz : t.pnl = 0 := le_antisymm h h1
          exact Or.inr (ih.mp (by linarith))
      · intro hx
        rcases hx with h1 | hex
        · linarith
        · have := ih.mpr hex
          linarith
    · have h2 : ¬ t.pnl < 0 := fun hc => h hc.le
      have hfc : (t :: l).filter (fun t => t.pnl ≤ 0) =
          l.filter (fun t => t.pnl ≤ 0) := by
        simp [List.filter_cons, h]
      rw [hfc, ih, List.exists_mem_cons_iff]
      exact ⟨Or.inr, fun hx => hx.resolve_left h2⟩

/-- C8: the profit factor equals the sum of PnL over trades with PnL > 0
divided by the absolute value of the sum of PnL over trades with PnL ≤ 0,
and equals the large finite sentinel 999 exactly when the ledger has no
losing (negative-PnL) trade, so it is a defined finite rational even for
an empty ledger. -/
theorem c8_profit_factor (trades : List Trade) :
    profit_factor trades =
      if ∃ t ∈ trades, t.pnl < 0
      then totalProfit trades / totalLoss trades
      else 999 := by
  have hle := sum_filter_nonpos_le trades
  have hiff := sum_filter_nonpos_neg_iff trades
  by_cases hex : ∃ t ∈ trades, t.pnl < 0
  · have hneg := hiff.mpr hex
    have hpos : totalLoss trades > 0 := by
      unfold totalLoss qabs
      rw [if_pos hneg]
      linarith
    unfold profit_factor
    rw [if_pos hpos, if_pos hex]
  · have hz : ((trades.filter (fun t => t.pnl ≤ 0)).map
        (fun t => t.pnl)).sum = 0 := by
      have := (not_iff_not.mpr hiff).mpr hex
      linarith [not_lt.mp this]
    have hnpos : ¬ totalLoss trades > 0 := by
      unfold totalLoss qabs
      rw [hz]
      norm_num
    unfold profit_factor
    rw [if_neg hnpos, if_neg hex]

/-- C4 (amended): with a non-negative fee rate and a non-negative balance,
neither entry operation can drive the cash balance negative (the
affordability guards refuse the trade instead), and whenever an entry
actually executes its notional (size × slipped execution price) is at most
balance/(1+fee_pct) of the pre-entry balance.  (Run-wide non-negativity
after EXITS does not hold for arbitrary slippage; see the
counterexample.) -/
theorem c4_entry_capital (cfg : Config) (st : BtState)
    (price size sl tp : ℚ) (t : Int)
    (hfee : 0 ≤ cfg.fee_pct) (hbal : 0 ≤ st.balance) :
    0 ≤ (execute_buy cfg st price size sl tp t).balance ∧
    0 ≤ (execute_short cfg st price size sl tp t).balance ∧
    ((execute_buy cfg st price size sl tp t).position ≠ st.position →
      price * (1 + cfg.slippage_pct) * size ≤
        st.balance / (1 + cfg.fee_pct)) ∧
    ((execute_short cfg st price size sl tp t).position ≠ st.position →
      price * (1 - cfg.slippage_pct) * size ≤
        st.balance / (1 + cfg.fee_pct)) := by
  have h1f : (0:ℚ) < 1 + cfg.fee_pct := by linarith
  refine ⟨?_, ?_, ?_, ?_⟩
  · by_cases hc : price * (1 + cfg.slippage_pct) * size +
        price * (1 + cfg.slippage_pct) * size * cfg.fee_pct > st.balance
    · simp only [execute_buy, if_pos hc]
      exact hbal
    · simp only [execute_buy, if_neg hc]
      push_neg at hc
      linarith
  · by_cases hc : price * (1 - cfg.slippage_pct) * size +
        price * (1 - cfg.slippage_pct) * size * cfg.fee_pct > st.balance
    · simp only [execute_short, if_pos hc]
      exact hbal
    · simp only [execute_short, if_neg hc]
      push_neg at hc
      linarith
  · intro hchanged
    by_cases hc : price * (1 + cfg.slippage_pct) * size +
        price * (1 + cfg.slippage_pct) * size * cfg.fee_pct > st.balance
    · exact absurd (by simp only [execute_buy, if_pos hc]) hchanged
    · push_neg at hc
      rw [le_div_iff₀ h1f]
      nlinarith
  · intro hchanged
    by_cases hc : price * (1 - cfg.slippage_pct) * size +
        price * (1 - cfg.slippage_pct) * size * cfg.fee_pct > st.balance
    · exact absurd (by simp only [execute_short, if_pos hc]) hchanged
    · push_neg at hc
      rw [le_div_iff₀ h1f]
      nlinarith

theorem c4_entry_capital_witness :
    0 ≤ (execute_buy cfg0 (initState 10000) 100 50 96 108 0).balance ∧
    0 ≤ (execute_short cfg0 (initState 10000) 100 50 96 108 0).balance ∧
    ((execute_buy cfg0 (initState 10000) 100 50 96 108 0).position ≠
        (initState 10000).position →
      100 * (1 + cfg0.slippage_pct) * 50 ≤
        (initState 10000).balance / (1 + cfg0.fee_pct)) ∧
    ((execute_short cfg0 (initState 10000) 100 50 96 108 0).position ≠
        (initState 10000).position →
      100 * (1 - cfg0.slippage_pct) * 50 ≤
        (initState 10000).balance / (1 + cfg0.fee_pct)) :=
  c4_entry_capital cfg0 (initState 10000) 100 50 96 108 0
    (by norm_num [cfg0]) (by norm_num [initState])

/-- C5: across one exit-check step on a bar, if the position stays open
the stop never loosens (a long's stop is non-decreasing, a short's is
non-increasing), and whenever the stop changes it was tightened to
entry ± 0.5R with R = |entry − initial stop|, only on a bar whose
favorable excursion reached entry ± 2.5R, and only to a strictly more
favorable level. -/
theorem c5_trailing_stop (cfg : Config) (st : BtState) (row : Row)
    (p q : Position) (hp : st.position = some p)
    (hq : (check_exit cfg st row).position = some q) :
    (p.ptype = PosType.long →
      p.sl ≤ q.sl ∧
      (q.sl ≠ p.sl →
        q.sl = p.entry_price +
          (1/2) * qabs (p.entry_price - p.initial_sl) ∧
        row.high ≥ p.entry_price +
          (5/2) * qabs (p.entry_price - p.initial_sl) ∧
        p.sl < q.sl)) ∧
    (p.ptype = PosType.short →
      q.sl ≤ p.sl ∧
      (q.sl ≠ p.sl →
        q.sl = p.entry_price -
          (1/2) * qabs (p.entry_price - p.initial_sl) ∧
        row.low ≤ p.entry_price -
          (5/2) * qabs (p.entry_price - p.initial_sl) ∧
        q.sl < p.sl)) := by
  obtain ⟨bal, posopt, tr, ec, bc⟩ := st
  dsimp only at hp
  subst hp
  obtain ⟨pt, ep, sz, slv, isl, tpv, et⟩ := p
  cases pt
  case long =>
    refine ⟨fun _ => ?_, fun hcontra => by simp at hcontra⟩
    dsimp only [check_exit] at hq
    split at hq
    · simp [execute_sell] at hq
    · dsimp only at hq
      injection hq with hq
      subst hq
      dsimp only
      by_cases hC : ep - isl > 0 ∧ row.high ≥ ep + 5/2 * (ep - isl) ∧
          ep + 1/2 * (ep - isl) > slv
      · rw [if_pos hC]
        obtain ⟨hrisk, hhigh, hgt⟩ := hC
        have habs : qabs (ep - isl) = ep - isl := by
          unfold qabs
          rw [if_neg (not_lt.mpr hrisk.le)]
        refine ⟨le_of_lt hgt, fun _ => ⟨by rw [habs], by rw [habs]; exact hhigh,
          hgt⟩⟩
      · rw [if_neg hC]
        exact ⟨le_refl _, fun hne => absurd rfl hne⟩
  case short =>
    refine ⟨fun hcontra => by simp at hcontra, fun _ => ?_⟩
    dsimp only [check_exit] at hq
    split at hq
    · simp [execute_cover] at hq
    · dsimp only at hq
      injection hq with hq
      subst hq
      dsimp only
      by_cases hC : isl - ep > 0 ∧ row.low ≤ ep - 5/2 * (isl - ep) ∧
          ep - 1/2 * (isl - ep) < slv
      · rw [if_pos hC]
        obtain ⟨hrisk, hlow, hlt⟩ := hC
        have habs : qabs (ep - isl) = isl - ep := by
          unfold qabs
          rw [if_pos (by linarith)]
          ring
        refine ⟨le_of_lt hlt, fun _ => ⟨by rw [habs], by rw [habs]; exact hlow,
          hlt⟩⟩
      · rw [if_neg hC]
        exact ⟨le_refl _, fun hne => absurd rfl hne⟩

theorem c5_trailing_stop_witness :
    posTrail.sl ≤ posTrailAfter.sl ∧
    (posTrailAfter.sl ≠ posTrail.sl →
      posTrailAfter.sl = posTrail.entry_price +
        (1/2) * qabs (posTrail.entry_price - posTrail.initial_sl) ∧
      rowTrail.high ≥ posTrail.entry_price +
        (5/2) * qabs (posTrail.entry_price - posTrail.initial_sl) ∧
      posTrail.sl < posTrailAfter.sl) :=
  (c5_trailing_stop cfg0 stTrail rowTrail posTrail posTrailAfter rfl
    (by with_unfolding_all rfl)).1 rfl

/-- C10: each bar's entry check runs after that bar's exit check, against
the state the exit check produced; so when the exit check closes the open
position on a bar, the bar's final state is the entry check applied to the
post-exit state on the very same bar (a same-bar re-entry, sized against
the just-updated balance at that bar's close, is possible). -/
theorem c10_same_bar_reentry (cfg : Config) (bs : ℚ) (st : BtState)
    (row : Row) (hpos : st.position.isSome = true)
    (hexit : (check_exit cfg (record_curves bs st row) row).position = none) :
    process_bar cfg bs st row =
      check_entry cfg (check_exit cfg (record_curves bs st row) row) row := by
  unfold process_bar
  dsimp only
  rw [record_curves_position, if_pos hpos]
  rw [if_pos (by rw [hexit]; rfl)]

theorem c10_same_bar_reentry_witness :
    process_bar cfg0 0 stReentry rowReentry =
      check_entry cfg0
        (check_exit cfg0 (record_curves 0 stReentry rowReentry) rowReentry)
        rowReentry ∧
    (process_bar cfg0 0 stReentry rowReentry).position.isSome = true ∧
    (process_bar cfg0 0 stReentry rowReentry).trades.length = 1 :=
  ⟨c10_same_bar_reentry cfg0 0 stReentry rowReentry rfl
      (by with_unfolding_all rfl),
   by with_unfolding_all rfl, by with_unfolding_all rfl⟩

set_option maxRecDepth 4000 in
/-- C4 counterexample: with fee_pct = 0 and slippage_pct = 1/2 (both
non-negative, as the claim allows), the 210-bar run `rowsShortBust` opens
a short on its SELL bar and covers it at the stop on the next bar, driving
the cash balance to −300 < 0: the balance does go negative after an exit
operation. -/
theorem c4_counterexample :
    0 ≤ cfgHalf.fee_pct ∧ 0 ≤ cfgHalf.slippage_pct ∧
    finalBalance (run cfgHalf 10000 rowsShortBust) = -300 ∧
    finalBalance (run cfgHalf 10000 rowsShortBust) < 0 := by
  with_unfolding_all decide

end TradeCrypto
